import Mathlib

set_option maxRecDepth 16384

/-!
Shallow embedding of `src/etherscan_api_example.py` (an Etherscan v2 API
example client) and proofs about it.

Modelling conventions:
* Python JSON values are modelled by `PyVal` (a top-level JSON object whose
  fields are either scalars or one further level of object of scalars; JSON
  numbers are modelled as integers).  No claim depends on deeper nesting,
  floats, or arrays.
* Python machine floats are modelled exactly: CPython `int / int` is a
  correctly-rounded IEEE-754 binary64 division (Objects/longobject.c,
  `long_true_divide`), and `f"{x:.6f}"` renders the exact value of the double
  rounded to 6 fractional digits with round-half-to-even (David Gay dtoa).
  Both are reproduced here with exact integer arithmetic (`pyTrueDiv`,
  `formatFixed6`); no floating-point types are used.
* Fallible Python code returns `Except String _`; `.error e` means an
  uncaught exception named `e` propagates.
* The HTTP transport is a parameter: `TransportOutcome` is whatever the
  network delivers for one request (a `requests` exception, or a response
  with a status code and a body that either fails to decode or decodes to a
  JSON value).
-/

/-- Scalar JSON/Python values as delivered by `json` decoding: strings,
integers, booleans and `None` (JSON `null`). -/
inductive PyScalar where
  | str (s : String)
  | num (n : ℤ)
  | bool (b : Bool)
  | null
deriving DecidableEq

/-- A field of a decoded top-level JSON object: a scalar, or one further
level of object of scalars (enough for every response shape the program
touches — the `result` object of strings of the gas oracle). -/
inductive PyField where
  | scalar (v : PyScalar)
  | obj (entries : List (String × PyScalar))
deriving DecidableEq

/-- A decoded JSON value delivered by `response.json()`: a scalar, or an
object whose fields are `PyField`s. -/
inductive PyVal where
  | scalar (v : PyScalar)
  | dict (entries : List (String × PyField))
deriving DecidableEq

/-- Python `d.get(k)` / `k in d` on a decoded JSON object: the value at the
first matching key, if any. -/
def lookupKey {α : Type} (d : List (String × α)) (k : String) : Option α :=
  (d.find? (fun p => p.1 == k)).map (fun p => p.2)

/-- Python `str()` of a scalar, as used by f-string interpolation. -/
def pyScalarStr : PyScalar → String
  | .str s => s
  | .num n => Int.repr n
  | .bool true => "True"
  | .bool false => "False"
  | .null => "None"

/-- Python `repr()` of a scalar, as used when a dict is interpolated.
Escaping of quotes and backslashes inside string reprs is not modelled;
no claim touches it. -/
def pyReprScalar : PyScalar → String
  | .str s => "\x27" ++ s ++ "\x27"
  | .num n => Int.repr n
  | .bool true => "True"
  | .bool false => "False"
  | .null => "None"

/-- Python `str()` of a field value (scalar, or dict rendered Python-style). -/
def pyFieldStr : PyField → String
  | .scalar v => pyScalarStr v
  | .obj l =>
    "\x7b" ++ String.intercalate ", "
      (l.map (fun p => "\x27" ++ p.1 ++ "\x27: " ++ pyReprScalar p.2)) ++ "\x7d"

/-- Python truthiness of an optional decoded value (`if gas_data:`):
`None` and empty containers/zero are falsy. -/
def pyTruthy : Option PyVal → Bool
  | none => false
  | some (.dict d) => !d.isEmpty
  | some (.scalar (.str s)) => !(s == "")
  | some (.scalar (.num n)) => !(n == 0)
  | some (.scalar (.bool b)) => b
  | some (.scalar .null) => false

/-- Whitespace accepted (and stripped) by Python `int(str)`. -/
def isPyWs (c : Char) : Bool :=
  c == ' ' || c == '\t' || c == '\n' || c == '\x0d' || c == '\x0b' || c == '\x0c'

/-- Digit tail of a Python decimal-integer literal: digits with single
underscores allowed between digits (PEP 515), accumulating the value. -/
def parseDigits : List Char → ℕ → Option ℕ
  | [], acc => some acc
  | c :: rest, acc =>
    if c.isDigit then parseDigits rest (acc * 10 + (c.toNat - 48))
    else if c == '_' then
      match rest with
      | c2 :: rest2 =>
        if c2.isDigit then parseDigits rest2 (acc * 10 + (c2.toNat - 48)) else none
      | [] => none
    else none

/-- Python `int(s)` for a decimal string: surrounding whitespace is stripped,
one optional sign, then digits with optional single underscores between
digits; `none` models `ValueError`. -/
def pyParseInt (s : String) : Option ℤ :=
  let l := ((s.data.dropWhile isPyWs).reverse.dropWhile isPyWs).reverse
  let p : Bool × List Char :=
    match l with
    | '-' :: rest => (true, rest)
    | '+' :: rest => (false, rest)
    | _ => (false, l)
  match p.2 with
  | [] => none
  | c :: rest =>
    if c.isDigit then
      match parseDigits rest (c.toNat - 48) with
      | some n => some (if p.1 then -(n : ℤ) else (n : ℤ))
      | none => none
    else none

/-- Python `int(x)` on a decoded JSON field; `none` models the
`ValueError`/`TypeError` that `format_balance` catches. -/
def pyInt : PyField → Option ℤ
  | .scalar (.str s) => pyParseInt s
  | .scalar (.num n) => some n
  | .scalar (.bool b) => some (if b then 1 else 0)
  | .scalar .null => none
  | .obj _ => none

/-- Round the fraction `n / m` (with `m > 0`) to the nearest natural number,
ties to even — the rounding used both by binary64 arithmetic and by the CPython
fixed-point float formatting. -/
def rhe (n m : ℕ) : ℕ :=
  let q := n / m
  let r := n % m
  if 2 * r < m then q else if m < 2 * r then q + 1 else if q % 2 = 0 then q else q + 1

/-- Fuel-bounded count of the largest `e` with `m * 2^e ≤ n` (requires
`m ≤ n`); fuel 4200 covers every quotient below `2^4200`, far beyond the
binary64 overflow threshold `2^1024`. -/
def flogUp : ℕ → ℕ → ℕ → ℕ
  | 0, _, _ => 0
  | fuel + 1, n, m => if 2 * m ≤ n then flogUp fuel n (2 * m) + 1 else 0

/-- Fuel-bounded count of the smallest `k` with `m ≤ n * 2^k` (requires
`n < m`, `n ≥ 1`); for denominators up to `10^18` at most 60 steps occur. -/
def flogDown : ℕ → ℕ → ℕ → ℕ
  | 0, _, _ => 0
  | fuel + 1, n, m => if n < m then flogDown fuel (2 * n) m + 1 else 0

/-- `⌊log₂ (n / b)⌋` of a positive rational given as a numerator/denominator
pair of positive naturals. -/
def flog2 (n b : ℕ) : ℤ :=
  if b ≤ n then (flogUp 4200 n b : ℤ) else -(flogDown 4200 n b : ℤ)

/-- Whether `m * 2^e ≥ 2^k`, computed exactly on integers. -/
def scaledGe (m : ℕ) (e : ℤ) (k : ℕ) : Bool :=
  if 0 ≤ e then decide (2 ^ k ≤ m * 2 ^ e.toNat) else decide (2 ^ (k + (-e).toNat) ≤ m)

/-- An IEEE-754 binary64 value, exactly: `(-1)^neg * mant * 2^exp` with
`mant < 2^53` (or `2^53` at a power-of-two boundary, which denotes the same
real number). -/
structure FloatRep where
  neg : Bool
  mant : ℕ
  exp : ℤ
deriving DecidableEq

/-- CPython `int / int` true division (`long_true_divide`): the correctly
rounded (round-half-even) binary64 value of the exact quotient `a / b`;
`none` models the `OverflowError` raised when the rounded quotient reaches
`2^1024`.  The quotients reachable from this program are at least `10^-18`
in magnitude, so subnormals never arise. -/
def pyTrueDiv (a : ℤ) (b : ℕ) : Option FloatRep :=
  if a = 0 then some ⟨false, 0, 0⟩
  else
    let n := a.natAbs
    let e : ℤ := flog2 n b
    let N : ℕ := if e ≤ 52 then n * 2 ^ (52 - e).toNat else n
    let M : ℕ := if e ≤ 52 then b else b * 2 ^ (e - 52).toNat
    let m := rhe N M
    if scaledGe m (e - 52) 1024 then none
    else some ⟨decide (a < 0), m, e - 52⟩

/-- Zero-pad a natural below `10^6` to exactly 6 digits. -/
def pad6 (n : ℕ) : String :=
  let s := Nat.repr n
  String.mk (List.replicate (6 - s.length) '0') ++ s

/-- CPython `f"{x:.6f}"` on a binary64 value: the exact value of the double,
rounded to 6 fractional digits with round-half-to-even, printed in fixed
notation with the sign of the double. -/
def formatFixed6 (x : FloatRep) : String :=
  let scaled : ℕ :=
    if 0 ≤ x.exp then x.mant * 2 ^ x.exp.toNat * 10 ^ 6
    else rhe (x.mant * 10 ^ 6) (2 ^ (-x.exp).toNat)
  (if x.neg then "-" else "") ++ Nat.repr (scaled / 10 ^ 6) ++ "." ++ pad6 (scaled % 10 ^ 6)

/-- `format_balance(balance_wei, decimals)` from the source: `int(balance_wei)`
divided by `10 ** decimals` as a Python float, rendered with `:.6f`;
`ValueError`/`TypeError` from `int()` are caught and become the marker string,
while an `OverflowError` from the division propagates. -/
def format_balance (balance_wei : PyField) (decimals : ℕ) : Except String String :=
  match pyInt balance_wei with
  | none => .ok "Invalid balance"
  | some v =>
    match pyTrueDiv v (10 ^ decimals) with
    | none => .error "OverflowError"
    | some x => .ok (formatFixed6 x)

/-- The division-and-rendering pipeline of `format_balance` after a successful
parse: the binary64 quotient rendered at 6 fractional digits, or the
propagating `OverflowError`. -/
def pyDivFormat (v : ℤ) (d : ℕ) : Except String String :=
  match pyTrueDiv v (10 ^ d) with
  | none => .error "OverflowError"
  | some x => .ok (formatFixed6 x)

/-- Rendering of the exact rational `v / 10^d` with exactly 6 fractional
digits (round-half-even), following the words of the specification: "interprets
rawValue as an arbitrary-precision integer, divides by 10^decimals, renders
with fixed 6 fractional digits".  Used to compare the exact-arithmetic
reading of the spec against the float arithmetic the source performs. -/
def specExactRender6 (v : ℤ) (d : ℕ) : String :=
  let scaled := rhe (v.natAbs * 10 ^ 6) (10 ^ d)
  (if v < 0 then "-" else "") ++ Nat.repr (scaled / 10 ^ 6) ++ "." ++ pad6 (scaled % 10 ^ 6)

instance {ε α : Type} [DecidableEq ε] [DecidableEq α] : DecidableEq (Except ε α) :=
  fun a b =>
  match a, b with
  | .ok x, .ok y => if h : x = y then .isTrue (by rw [h]) else .isFalse (by simp [h])
  | .ok _, .error _ => .isFalse (by simp)
  | .error _, .ok _ => .isFalse (by simp)
  | .error x, .error y =>
    if h : x = y then .isTrue (by rw [h]) else .isFalse (by simp [h])

/-- The client state set up by `EtherscanAPI.__init__`: the stored key, chain
id and base URL, plus the session-level default query parameters attached to
`self.session.params`. -/
structure EtherscanAPI where
  api_key : String
  chainid : ℤ
  base_url : String
  session_params : List (String × String)
deriving DecidableEq

/-- `EtherscanAPI(api_key, chainid)`: stores the configuration and updates the
session default parameters with `apikey` and `chainid` (rendered by
`requests` as decimal text in the query string). -/
def EtherscanAPI.init (api_key : String) (chainid : ℤ) : EtherscanAPI :=
  { api_key := api_key
    chainid := chainid
    base_url := "https://api.etherscan.io/api"
    session_params := [("apikey", api_key), ("chainid", Int.repr chainid)] }

/-- `requests` merging of session-level parameters with per-request
parameters: the request-level value wins on a key collision. -/
def mergeParams (session percall : List (String × String)) : List (String × String) :=
  session.filter (fun p => ((percall.find? (fun q => q.1 == p.1)).isNone : Bool)) ++ percall

/-- One outgoing HTTP GET as issued by `self.session.get(self.base_url,
params=params, timeout=10)`: the URL, the merged query parameters, and the
timeout in seconds. -/
structure HttpRequest where
  url : String
  params : List (String × String)
  timeout : ℕ
deriving DecidableEq

/-- The body of a delivered HTTP response: either text that fails JSON
decoding, or a decoded JSON value. -/
inductive HttpBody where
  | malformed
  | json (v : PyVal)
deriving DecidableEq

/-- What the transport does with one request: raise a
`requests.exceptions.RequestException` (connection error, timeout, …) carrying
a message, or deliver a response with an HTTP status code and a body. -/
inductive TransportOutcome where
  | netError (msg : String)
  | response (code : ℕ) (body : HttpBody)
deriving DecidableEq

/-- What one fetch operation produces: the value returned to the caller (or an
uncaught exception), together with the lines printed to the console. -/
structure FlowResult where
  result : Except String (Option PyVal)
  log : List String
deriving DecidableEq

/-- Interpolation of `data.get("message", "Unknown error")` into the error line. -/
def apiMessage (d : List (String × PyField)) : String :=
  match lookupKey d "message" with
  | some v => pyFieldStr v
  | none => "Unknown error"

/-- The response-handling block shared verbatim by the three fetch operations:
`raise_for_status()` (raises for status 400–599, caught as a
`RequestException`), `response.json()` (decode failure caught as
`JSONDecodeError`), then the `data.get("status") == "1"` check.  On a decoded
non-object JSON value, `data.get` raises an uncaught `AttributeError`.  The
exact exception texts `requests` puts in `e` for HTTP and decode errors are
abstracted (no claim depends on them). -/
def responseFlow (okMsg : String) (t : TransportOutcome) : FlowResult :=
  match t with
  | .netError e => ⟨.ok none, ["✗ Request failed: " ++ e]⟩
  | .response code body =>
    if 400 ≤ code ∧ code < 600 then
      ⟨.ok none, ["✗ Request failed: HTTP status " ++ Nat.repr code]⟩
    else
      match body with
      | .malformed => ⟨.ok none, ["✗ Failed to parse JSON response"]⟩
      | .json (.dict d) =>
        if lookupKey d "status" = some (.scalar (.str "1")) then
          ⟨.ok (some (.dict d)), [okMsg]⟩
        else
          ⟨.ok none, ["✗ API returned error: " ++ apiMessage d]⟩
      | .json (.scalar _) => ⟨.error "AttributeError", []⟩

/-- The request built by `get_gas_prices`. -/
def EtherscanAPI.gas_request (api : EtherscanAPI) : HttpRequest :=
  { url := api.base_url
    params := mergeParams api.session_params
      [("module", "gastracker"), ("action", "gasoracle")]
    timeout := 10 }

/-- The request built by `get_token_balance`. -/
def EtherscanAPI.token_request (api : EtherscanAPI)
    (contract_address wallet_address : String) : HttpRequest :=
  { url := api.base_url
    params := mergeParams api.session_params
      [("module", "account"), ("action", "tokenbalance"),
       ("contractaddress", contract_address), ("address", wallet_address),
       ("tag", "latest")]
    timeout := 10 }

/-- The request built by `get_eth_balance`. -/
def EtherscanAPI.eth_request (api : EtherscanAPI) (wallet_address : String) :
    HttpRequest :=
  { url := api.base_url
    params := mergeParams api.session_params
      [("module", "account"), ("action", "balance"),
       ("address", wallet_address), ("tag", "latest")]
    timeout := 10 }

/-- `get_gas_prices`, as a function of what the transport does with the
request it sends: the outgoing request together with the handled outcome. -/
def EtherscanAPI.get_gas_prices (api : EtherscanAPI) (t : TransportOutcome) :
    HttpRequest × FlowResult :=
  (api.gas_request, responseFlow "✓ Gas prices fetched successfully" t)

/-- `get_token_balance(contract_address, wallet_address)`. -/
def EtherscanAPI.get_token_balance (api : EtherscanAPI)
    (contract_address wallet_address : String) (t : TransportOutcome) :
    HttpRequest × FlowResult :=
  (api.token_request contract_address wallet_address,
   responseFlow "✓ Token balance fetched successfully" t)

/-- `get_eth_balance(wallet_address)`. -/
def EtherscanAPI.get_eth_balance (api : EtherscanAPI) (wallet_address : String)
    (t : TransportOutcome) : HttpRequest × FlowResult :=
  (api.eth_request wallet_address,
   responseFlow "✓ ETH balance fetched successfully" t)

/-- The five fixed lines of `format_gas_prices` built from
`result.get(..., "N/A")`, before the optional base-fee line. -/
def gasBase (r : List (String × PyScalar)) : List String :=
  ["\n=== Current Gas Prices (Gwei) ===",
   "Safe Gas Price:    " ++
     (match lookupKey r "SafeGasPrice" with
      | some v => pyScalarStr v
      | none => "N/A") ++ " Gwei",
   "Propose Gas Price: " ++
     (match lookupKey r "ProposeGasPrice" with
      | some v => pyScalarStr v
      | none => "N/A") ++ " Gwei",
   "Fast Gas Price:    " ++
     (match lookupKey r "FastGasPrice" with
      | some v => pyScalarStr v
      | none => "N/A") ++ " Gwei",
   "Last Block:        " ++
     (match lookupKey r "LastBlock" with
      | some v => pyScalarStr v
      | none => "N/A")]

/-- The full `lines` list of `format_gas_prices`: the base lines, plus the
base-fee line exactly when `result.get("suggestBaseFee")` is not `None`
(so a present JSON `null` behaves like a missing key). -/
def gasLines (r : List (String × PyScalar)) : List String :=
  match lookupKey r "suggestBaseFee" with
  | none => gasBase r
  | some .null => gasBase r
  | some v => gasBase r ++ ["Suggested Base Fee: " ++ pyScalarStr v ++ " Gwei"]

/-- Python `"\n".join`. -/
def joinNL : List String → String
  | [] => ""
  | [s] => s
  | s :: rest => s ++ "\n" ++ joinNL rest

/-- Python substring test `needle in hay` on character lists. -/
def startsList : List Char → List Char → Bool
  | [], _ => true
  | _ :: _, [] => false
  | a :: as, b :: bs => a == b && startsList as bs

/-- Whether `n` occurs as a contiguous run inside `h`. -/
def infixList (n : List Char) : List Char → Bool
  | [] => n.isEmpty
  | c :: rest => startsList n (c :: rest) || infixList n rest

/-- `needle` occurs verbatim inside `hay`. -/
def Substr (needle hay : String) : Prop :=
  infixList needle.data hay.data = true

/-- `format_gas_prices(data)` from the source.  `data` is the value returned
by a fetch (possibly `None`); the guard is `if not data or "result" not in
data`.  A non-dict `data` follows Python semantics for `not data` and
`"result" not in data` (`in` on a string is a substring test, on other
scalars a `TypeError`); a non-dict `result` makes `result.get` raise
`AttributeError`. -/
def format_gas_prices (data : Option PyVal) : Except String String :=
  match data with
  | none => .ok "No gas price data available"
  | some (.dict d) =>
    if d.isEmpty then .ok "No gas price data available"
    else
      match lookupKey d "result" with
      | none => .ok "No gas price data available"
      | some (.obj r) => .ok (joinNL (gasLines r))
      | some (.scalar _) => .error "AttributeError"
  | some (.scalar (.str s)) =>
    if s == "" then .ok "No gas price data available"
    else if infixList "result".data s.data then .error "TypeError"
    else .ok "No gas price data available"
  | some (.scalar .null) => .ok "No gas price data available"
  | some (.scalar (.num n)) =>
    if n == 0 then .ok "No gas price data available" else .error "TypeError"
  | some (.scalar (.bool b)) =>
    if b then .error "TypeError" else .ok "No gas price data available"

/-- Events observable in `main()`: issuing each fetch, and invoking the
corresponding formatter on a fetched result. -/
inductive DriverEvent where
  | fetchGas
  | formatGas
  | fetchToken
  | formatToken
  | fetchEth
  | formatEth
deriving DecidableEq

/-- The client `main()` constructs. -/
def mainApi : EtherscanAPI := EtherscanAPI.init "YourApiKeyToken" 1

/-- Example 1 of `main()`: fetch gas prices and, when the result is truthy,
print `format_gas_prices(gas_data)` (whose `AttributeError` would propagate).
Returns the events of this example and an uncaught exception, if any. -/
def mainGasExample (r : Except String (Option PyVal)) :
    List DriverEvent × Option String :=
  match r with
  | .error e => ([.fetchGas], some e)
  | .ok gas_data =>
    if pyTruthy gas_data then
      match format_gas_prices gas_data with
      | .error e => ([.fetchGas, .formatGas], some e)
      | .ok _ => ([.fetchGas, .formatGas], none)
    else ([.fetchGas], none)

/-- `token_data.get("result", "0")` — the balance string pulled out of a
truthy fetch result before formatting. -/
def resultField (data : Option PyVal) : PyField :=
  match data with
  | some (.dict d) =>
    match lookupKey d "result" with
    | some v => v
    | none => .scalar (.str "0")
  | _ => .scalar (.str "0")

/-- Example 2 of `main()`: fetch the token balance and, when truthy, format
`token_data.get("result", "0")` with 6 decimals (an `OverflowError` from
`format_balance` would propagate). -/
def mainTokenExample (r : Except String (Option PyVal)) :
    List DriverEvent × Option String :=
  match r with
  | .error e => ([.fetchToken], some e)
  | .ok token_data =>
    if pyTruthy token_data then
      match format_balance (resultField token_data) 6 with
      | .error e => ([.fetchToken, .formatToken], some e)
      | .ok _ => ([.fetchToken, .formatToken], none)
    else ([.fetchToken], none)

/-- Example 3 of `main()`: fetch the ETH balance and, when truthy, format
`eth_data.get("result", "0")` with 18 decimals. -/
def mainEthExample (r : Except String (Option PyVal)) :
    List DriverEvent × Option String :=
  match r with
  | .error e => ([.fetchEth], some e)
  | .ok eth_data =>
    if pyTruthy eth_data then
      match format_balance (resultField eth_data) 18 with
      | .error e => ([.fetchEth, .formatEth], some e)
      | .ok _ => ([.fetchEth, .formatEth], none)
    else ([.fetchEth], none)

/-- Sequencing of the driver examples: a later example runs only when the
earlier one did not end in an uncaught exception. -/
def andThen (a : List DriverEvent × Option String)
    (b : Unit → List DriverEvent × Option String) :
    List DriverEvent × Option String :=
  match a.2 with
  | some e => (a.1, some e)
  | none =>
    match b () with
    | (evs, exc) => (a.1 ++ evs, exc)

/-- `main()`, as a function of what the transport does with each of the three
requests: the observable fetch/format events in order, and the uncaught
exception that terminates the run, if any. -/
def mainDriver (t1 t2 t3 : TransportOutcome) : List DriverEvent × Option String :=
  andThen (mainGasExample (mainApi.get_gas_prices t1).2.result) (fun _ =>
    andThen (mainTokenExample (mainApi.get_token_balance
        "0xdac17f958d2ee523a2206206994597c13d831ec7"
        "0xd8dA6BF26964aF9D7eEd9e03E53415D37aA96045" t2).2.result) (fun _ =>
      mainEthExample (mainApi.get_eth_balance
        "0xd8dA6BF26964aF9D7eEd9e03E53415D37aA96045" t3).2.result))

/-- One call against the client, with the answer of the transport to it. -/
inductive ApiCall where
  | gas (t : TransportOutcome)
  | token (contract_address wallet_address : String) (t : TransportOutcome)
  | eth (wallet_address : String) (t : TransportOutcome)

/-- Performing one call: the client state afterwards together with the
request and result.  The method bodies assign no attribute and never touch
`self.session.params`, so the state after the call is the state before. -/
def stepCall (api : EtherscanAPI) : ApiCall → EtherscanAPI × (HttpRequest × FlowResult)
  | .gas t => (api, api.get_gas_prices t)
  | .token ca wa t => (api, api.get_token_balance ca wa t)
  | .eth wa t => (api, api.get_eth_balance wa t)

/-- The client state after a sequence of calls. -/
def runCalls (api : EtherscanAPI) : List ApiCall → EtherscanAPI
  | [] => api
  | c :: rest => runCalls (stepCall api c).1 rest

/-- The failure contract of one fetch against one transport outcome: absent
on a network error, on HTTP status 400–599 and on a decode failure, and no
uncaught exception whenever the delivered body decodes to a JSON object. -/
def AbsentOnFailure (fr : FlowResult) (t : TransportOutcome) : Prop :=
  (∀ e, t = .netError e → fr.result = .ok none) ∧
  (∀ code body, t = .response code body → 400 ≤ code → code < 600 →
    fr.result = .ok none) ∧
  (∀ code, t = .response code .malformed → fr.result = .ok none) ∧
  (∀ code d, t = .response code (.json (.dict d)) → ∃ r, fr.result = .ok r)

/-- The application-level contract of one fetch on a decoded JSON object
`d`: a status other than the string "1" yields an absent result with the
API-supplied message printed, and status "1" returns the parsed response. -/
def StatusContract (fr : FlowResult) (d : List (String × PyField)) : Prop :=
  (lookupKey d "status" ≠ some (.scalar (.str "1")) →
    fr.result = .ok none ∧
    ("✗ API returned error: " ++ apiMessage d) ∈ fr.log) ∧
  (lookupKey d "status" = some (.scalar (.str "1")) →
    fr.result = .ok (some (.dict d)))

/-- Simulated application-level failure response from the spec:
`{"status":"0","message":"NOTOK"}` delivered with HTTP 200. -/
def statusZeroResponse : TransportOutcome :=
  .response 200 (.json (.dict
    [("status", .scalar (.str "0")), ("message", .scalar (.str "NOTOK"))]))

/-- Simulated gas-oracle `result` object from the spec: the four gas fields and
no `suggestBaseFee`. -/
def specGasResult : List (String × PyScalar) :=
  [("SafeGasPrice", .str "20"), ("ProposeGasPrice", .str "22"),
   ("FastGasPrice", .str "24"), ("LastBlock", .str "100")]

/-- The gas-oracle `result` object of the C7 counterexample: all four gas
fields present, and `suggestBaseFee` present but bound to JSON `null`. -/
def nullBaseFeeResult : List (String × PyScalar) :=
  [("SafeGasPrice", .str "20"), ("ProposeGasPrice", .str "22"),
   ("FastGasPrice", .str "24"), ("LastBlock", .str "100"),
   ("suggestBaseFee", .null)]

example : pyParseInt "1000000" = some 1000000 := by decide
example : pyParseInt "not-a-number" = none := by decide
example : format_balance (.scalar (.str "1000000")) 6 = .ok "1.000000" := by decide
example : format_balance (.scalar (.str "123456789000000000000")) 18 = .ok "123.456789" := by decide
example : format_balance (.scalar (.str "10000000000000000000001")) 6 =
    .ok "10000000000000000.000000" := by decide
example : specExactRender6 ((10 : ℤ) ^ 22 + 1) 6 = "10000000000000000.000001" := by decide
example : pyDivFormat 15 7 = .ok "0.000002" := by decide
example : pyDivFormat 5 7 = .ok "0.000000" := by decide
example : pyDivFormat 999999500000000001 18 = .ok "1.000000" := by decide
example : pyDivFormat (-1) 18 = .ok "-0.000000" := by decide
example : pyDivFormat ((10 : ℤ) ^ 400) 6 = .error "OverflowError" := by decide
example : pyDivFormat ((10 : ℤ) ^ 21 + 1) 6 = .ok "1000000000000000.000000" := by decide

theorem runCalls_id : ∀ (calls : List ApiCall) (api : EtherscanAPI),
    runCalls api calls = api := by
  intro calls
  induction calls with
  | nil => intro api; rfl
  | cons c rest ih =>
    intro api
    have hstep : (stepCall api c).1 = api := by cases c <;> rfl
    simp only [runCalls, hstep]
    exact ih api

/-- C5: `format_balance("123456789000000000000", 18)` returns exactly
`"123.456789"`, and `format_balance("1000000", 6)` returns exactly
`"1.000000"` (no exception in either case). -/
theorem c5_format_balance_examples :
    format_balance (.scalar (.str "123456789000000000000")) 18 = .ok "123.456789" ∧
    format_balance (.scalar (.str "1000000")) 6 = .ok "1.000000" := by
  constructor
  · decide
  · decide

/-- C6: on any string that `int()` rejects, `format_balance` returns the
marker string `"Invalid balance"` and raises nothing, for every decimals
count. -/
theorem c6_invalid_input_marker (s : String) (d : ℕ)
    (h : pyParseInt s = none) :
    format_balance (.scalar (.str s)) d = .ok "Invalid balance" := by
  simp [format_balance, pyInt, h]

/-- Witness for C6 at the example input given in the spec. -/
theorem c6_invalid_input_marker_witness :
    format_balance (.scalar (.str "not-a-number")) 18 = .ok "Invalid balance" :=
  c6_invalid_input_marker "not-a-number" 18 (by decide)

/-- C1 counterexample: at `rawValue = "10000000000000000000001"` (a valid
decimal-integer literal) and `decimals = 6`, the program returns
`"10000000000000000.000000"` — the binary64 quotient rendered at 6 digits —
while the exact rational `(10^22 + 1) / 10^6` rendered with exactly 6
fractional digits is `"10000000000000000.000001"`.  The claimed equality with
the exact rational rendering is therefore false. -/
theorem c1_exact_rational_counterexample :
    pyParseInt "10000000000000000000001" = some ((10 : ℤ) ^ 22 + 1) ∧
    format_balance (.scalar (.str "10000000000000000000001")) 6 =
      .ok "10000000000000000.000000" ∧
    specExactRender6 ((10 : ℤ) ^ 22 + 1) 6 = "10000000000000000.000001" ∧
    format_balance (.scalar (.str "10000000000000000000001")) 6 ≠
      .ok (specExactRender6 ((10 : ℤ) ^ 22 + 1) 6) := by
  refine ⟨by decide, by decide, by decide, by decide⟩

/-- C1 amended: for every valid decimal-integer literal and decimals count
used by the program, `format_balance` returns the correctly-rounded IEEE-754
binary64 value of `rawValue / 10^decimals` rendered with exactly 6 fractional
digits (round-half-even) — not the exact rational value — and raises
`OverflowError` when that quotient reaches `2^1024`. -/
theorem c1_binary64_rendering (s : String) (v : ℤ) (d : ℕ)
    (hparse : pyParseInt s = some v) (_hd : d = 6 ∨ d = 18) :
    format_balance (.scalar (.str s)) d = pyDivFormat v d := by
  simp [format_balance, pyInt, hparse, pyDivFormat]

/-- Witness for the amended C1 at `rawValue = "1000000"`, `decimals = 6`. -/
theorem c1_binary64_rendering_witness :
    format_balance (.scalar (.str "1000000")) 6 = pyDivFormat 1000000 6 :=
  c1_binary64_rendering "1000000" 1000000 6 (by decide) (Or.inl rfl)

/-- C4: for every client constructed from an api key and a chain id, the
merged parameter map of each of the three outgoing requests contains
`apikey` equal to the construction key and `chainid` equal to the
construction chain id, whatever the per-call arguments are. -/
theorem c4_defaults_always_present (k : String) (c : ℤ) (ca wa : String) :
    (("apikey", k) ∈ (EtherscanAPI.init k c).gas_request.params ∧
      ("chainid", Int.repr c) ∈ (EtherscanAPI.init k c).gas_request.params) ∧
    (("apikey", k) ∈ ((EtherscanAPI.init k c).token_request ca wa).params ∧
      ("chainid", Int.repr c) ∈ ((EtherscanAPI.init k c).token_request ca wa).params) ∧
    (("apikey", k) ∈ ((EtherscanAPI.init k c).eth_request wa).params ∧
      ("chainid", Int.repr c) ∈ ((EtherscanAPI.init k c).eth_request wa).params) := by
  simp [EtherscanAPI.init, EtherscanAPI.gas_request, EtherscanAPI.token_request,
    EtherscanAPI.eth_request, mergeParams]

/-- C8: the request of each operation consists of exactly the session defaults
plus its specified per-call parameters, and every request carries the fixed
timeout of 10. -/
theorem c8_request_shapes (k : String) (c : ℤ) (ca wa : String) :
    (EtherscanAPI.init k c).gas_request =
      ⟨"https://api.etherscan.io/api",
        [("apikey", k), ("chainid", Int.repr c),
         ("module", "gastracker"), ("action", "gasoracle")], 10⟩ ∧
    (EtherscanAPI.init k c).token_request ca wa =
      ⟨"https://api.etherscan.io/api",
        [("apikey", k), ("chainid", Int.repr c),
         ("module", "account"), ("action", "tokenbalance"),
         ("contractaddress", ca), ("address", wa), ("tag", "latest")], 10⟩ ∧
    (EtherscanAPI.init k c).eth_request wa =
      ⟨"https://api.etherscan.io/api",
        [("apikey", k), ("chainid", Int.repr c),
         ("module", "account"), ("action", "balance"),
         ("address", wa), ("tag", "latest")], 10⟩ := by
  refine ⟨rfl, rfl, rfl⟩

/-- C10: no sequence of fetch calls changes the client: the key, chain id,
base URL and session-level default parameters after any call sequence are
exactly those set at construction. -/
theorem c10_no_client_mutation (k : String) (c : ℤ) (calls : List ApiCall) :
    (runCalls (EtherscanAPI.init k c) calls).api_key = k ∧
    (runCalls (EtherscanAPI.init k c) calls).chainid = c ∧
    (runCalls (EtherscanAPI.init k c) calls).base_url =
      "https://api.etherscan.io/api" ∧
    (runCalls (EtherscanAPI.init k c) calls).session_params =
      [("apikey", k), ("chainid", Int.repr c)] := by
  rw [runCalls_id]
  exact ⟨rfl, rfl, rfl, rfl⟩

theorem responseFlow_absent_on_failure (okMsg : String) (t : TransportOutcome) :
    AbsentOnFailure (responseFlow okMsg t) t := by
  refine ⟨?_, ?_, ?_, ?_⟩
  · intro e h
    subst h
    rfl
  · intro code body h h1 h2
    subst h
    simp only [responseFlow]
    rw [if_pos ⟨h1, h2⟩]
  · intro code h
    subst h
    by_cases hc : 400 ≤ code ∧ code < 600
    · simp only [responseFlow]
      rw [if_pos hc]
    · simp only [responseFlow]
      rw [if_neg hc]
  · intro code d h
    subst h
    by_cases hc : 400 ≤ code ∧ code < 600
    · refine ⟨none, ?_⟩
      simp only [responseFlow]
      rw [if_pos hc]
    · by_cases hs : lookupKey d "status" = some (.scalar (.str "1"))
      · refine ⟨some (.dict d), ?_⟩
        simp only [responseFlow]
        rw [if_neg hc, if_pos hs]
      · refine ⟨none, ?_⟩
        simp only [responseFlow]
        rw [if_neg hc, if_neg hs]

theorem responseFlow_status (okMsg : String) (code : ℕ)
    (d : List (String × PyField)) (hcode : code < 400) :
    StatusContract (responseFlow okMsg (.response code (.json (.dict d)))) d := by
  have hc : ¬(400 ≤ code ∧ code < 600) := by
    intro h
    exact absurd hcode (by omega)
  constructor
  · intro hs
    simp only [responseFlow]
    rw [if_neg hc, if_neg hs]
    exact ⟨rfl, by simp⟩
  · intro hs
    simp only [responseFlow]
    rw [if_neg hc, if_pos hs]

/-- C2 counterexample: the transport can deliver a non-2xx response (HTTP
304) whose body is valid JSON but not an object; `get_gas_prices` then
neither returns `None` nor stays exception-free — `data.get("status")`
raises an uncaught `AttributeError`. -/
theorem c2_no_exception_counterexample :
    ((EtherscanAPI.init "key" 1).get_gas_prices
        (.response 304 (.json (.scalar (.str "ok"))))).2.result =
      .error "AttributeError" ∧
    ((EtherscanAPI.init "key" 1).get_gas_prices
        (.response 304 (.json (.scalar (.str "ok"))))).2.result ≠
      .ok none := by
  refine ⟨rfl, by decide⟩

/-- C2 amended: for each of the three operations, a network error or timeout,
an HTTP status in 400–599, or a JSON-decode failure yields `None`; and no
exception propagates whenever any body that decodes is a JSON object (a
delivered status outside 400–599 — not only 2xx — proceeds to the decode and
status check; a body decoding to a non-object JSON value raises an uncaught
`AttributeError`). -/
theorem c2_failure_contract (k : String) (c : ℤ) (ca wa : String)
    (t : TransportOutcome) :
    AbsentOnFailure ((EtherscanAPI.init k c).get_gas_prices t).2 t ∧
    AbsentOnFailure ((EtherscanAPI.init k c).get_token_balance ca wa t).2 t ∧
    AbsentOnFailure ((EtherscanAPI.init k c).get_eth_balance wa t).2 t :=
  ⟨responseFlow_absent_on_failure _ t, responseFlow_absent_on_failure _ t,
   responseFlow_absent_on_failure _ t⟩

/-- Witness for the amended C2: a simulated timeout yields an absent result
from `get_gas_prices`. -/
theorem c2_failure_contract_witness :
    ((EtherscanAPI.init "YourApiKeyToken" 1).get_gas_prices
        (.netError "connection timed out")).2.result = .ok none :=
  (c2_failure_contract "YourApiKeyToken" 1 "a" "b"
      (.netError "connection timed out")).1.1 "connection timed out" rfl

/-- C3: for each of the three operations, on a delivered response (status
below 400) whose body decodes to a JSON object, a `status` field differing
from the string "1" (including a missing one) yields `None` with the
API-supplied message printed, and the parsed response is returned exactly
when `status` is the string "1". -/
theorem c3_status_contract (k : String) (c : ℤ) (ca wa : String) (code : ℕ)
    (d : List (String × PyField)) (hcode : code < 400) :
    StatusContract ((EtherscanAPI.init k c).get_gas_prices
        (.response code (.json (.dict d)))).2 d ∧
    StatusContract ((EtherscanAPI.init k c).get_token_balance ca wa
        (.response code (.json (.dict d)))).2 d ∧
    StatusContract ((EtherscanAPI.init k c).get_eth_balance wa
        (.response code (.json (.dict d)))).2 d :=
  ⟨responseFlow_status _ code d hcode, responseFlow_status _ code d hcode,
   responseFlow_status _ code d hcode⟩

/-- Witness for C3 at the simulated `{"status":"0","message":"NOTOK"}`
response: absent result and the surfaced message. -/
theorem c3_status_contract_witness :
    ((EtherscanAPI.init "YourApiKeyToken" 1).get_gas_prices
        statusZeroResponse).2.result = .ok none ∧
    ("✗ API returned error: NOTOK") ∈
      ((EtherscanAPI.init "YourApiKeyToken" 1).get_gas_prices
        statusZeroResponse).2.log :=
  (c3_status_contract "YourApiKeyToken" 1 "a" "b" 200
      [("status", .scalar (.str "0")), ("message", .scalar (.str "NOTOK"))]
      (by decide)).1.1 (by decide)

theorem strData_append (a b : String) : (a ++ b).data = a.data ++ b.data := by
  cases a with
  | mk la => cases b with
    | mk lb => rfl

theorem startsList_iff (n : List Char) :
    ∀ h, startsList n h = true ↔ ∃ t, h = n ++ t := by
  induction n with
  | nil =>
    intro h
    constructor
    · intro _
      exact ⟨h, rfl⟩
    · intro _
      rfl
  | cons a as ih =>
    intro h
    cases h with
    | nil =>
      constructor
      · intro hs
        exact absurd hs (by simp [startsList])
      · rintro ⟨t, ht⟩
        exact absurd ht (by simp)
    | cons b bs =>
      constructor
      · intro hs
        have h1 : (a == b) = true ∧ startsList as bs = true := by
          simpa [startsList, Bool.and_eq_true] using hs
        obtain ⟨t, ht⟩ := (ih bs).mp h1.2
        have hab : a = b := by simpa using h1.1
        exact ⟨t, by rw [← hab, ht]; rfl⟩
      · rintro ⟨t, ht⟩
        have ht' : b :: bs = a :: (as ++ t) := by simpa using ht
        injection ht' with h1 h2
        subst h1
        simp [startsList, (ih bs).mpr ⟨t, h2⟩]

theorem infixList_iff (n : List Char) :
    ∀ h, infixList n h = true ↔ ∃ p t, h = p ++ (n ++ t) := by
  intro h
  induction h with
  | nil =>
    constructor
    · intro hi
      have hn : n = [] := by
        cases n with
        | nil => rfl
        | cons c cs => simp [infixList] at hi
      exact ⟨[], [], by simp [hn]⟩
    · rintro ⟨p, t, hpt⟩
      have hp : p = [] ∧ n = [] := by
        constructor
        · cases p with
          | nil => rfl
          | cons q qs => simp at hpt
        · cases p with
          | nil =>
            cases n with
            | nil => rfl
            | cons c cs => simp at hpt
          | cons q qs => simp at hpt
      simp [infixList, hp.2]
  | cons c rest ih =>
    constructor
    · intro hi
      have hor : startsList n (c :: rest) = true ∨ infixList n rest = true := by
        simpa [infixList, Bool.or_eq_true] using hi
      rcases hor with hs | hrest
      · obtain ⟨t, ht⟩ := (startsList_iff n _).mp hs
        exact ⟨[], t, by simp [ht]⟩
      · obtain ⟨p, t, hpt⟩ := ih.mp hrest
        exact ⟨c :: p, t, by simp [hpt]⟩
    · rintro ⟨p, t, hpt⟩
      cases p with
      | nil =>
        have hs : startsList n (c :: rest) = true :=
          (startsList_iff n _).mpr ⟨t, by simpa using hpt⟩
        simp [infixList, hs]
      | cons q qs =>
        have hpt' : c :: rest = q :: (qs ++ (n ++ t)) := by simpa using hpt
        injection hpt' with h1 h2
        have : infixList n rest = true := ih.mpr ⟨qs, t, h2⟩
        simp [infixList, this]

theorem substr_intro (a n b : String) : Substr n (a ++ n ++ b) := by
  unfold Substr
  rw [strData_append, strData_append]
  exact (infixList_iff n.data _).mpr ⟨a.data, b.data, by rw [List.append_assoc]⟩

theorem substr_append_right (n x z : String) (h : Substr n x) :
    Substr n (x ++ z) := by
  unfold Substr at h ⊢
  rw [strData_append]
  obtain ⟨p, t, hpt⟩ := (infixList_iff _ _).mp h
  exact (infixList_iff _ _).mpr ⟨p, t ++ z.data, by rw [hpt]; simp⟩

theorem substr_append_left (n x z : String) (h : Substr n x) :
    Substr n (z ++ x) := by
  unfold Substr at h ⊢
  rw [strData_append]
  obtain ⟨p, t, hpt⟩ := (infixList_iff _ _).mp h
  exact (infixList_iff _ _).mpr ⟨z.data ++ p, t, by rw [hpt]; simp⟩

theorem substr_mem_joinNL (n : String) :
    ∀ (l : List String) (x : String), x ∈ l → Substr n x → Substr n (joinNL l) := by
  intro l
  induction l with
  | nil =>
    intro x hx _
    exact absurd hx (List.not_mem_nil x)
  | cons y ys ih =>
    intro x hx hn
    rcases List.mem_cons.mp hx with rfl | hmem
    · cases ys with
      | nil => simpa [joinNL] using hn
      | cons z zs =>
        simp only [joinNL]
        exact substr_append_right _ _ _ (substr_append_right _ _ _ hn)
    · cases ys with
      | nil => exact absurd hmem (List.not_mem_nil x)
      | cons z zs =>
        simp only [joinNL]
        exact substr_append_left _ _ _ (ih x hmem hn)

theorem gasBase_subset (r : List (String × PyScalar)) (x : String)
    (hx : x ∈ gasBase r) : x ∈ gasLines r := by
  rcases hsb : lookupKey r "suggestBaseFee" with _ | v
  · simpa [gasLines, hsb] using hx
  · cases v <;> simp only [gasLines, hsb] <;>
      first
        | exact hx
        | exact List.mem_append_left _ hx

/-- C7 counterexample: in a result object that does contain `suggestBaseFee`
but binds it to JSON `null`, `format_gas_prices` emits only the five base
lines — no suggested-base-fee line is appended — refuting the claimed
"if and only if the result contains suggestBaseFee". -/
theorem c7_null_basefee_counterexample :
    lookupKey nullBaseFeeResult "suggestBaseFee" = some PyScalar.null ∧
    gasLines nullBaseFeeResult = gasBase nullBaseFeeResult ∧
    (gasLines nullBaseFeeResult).length = 5 := by
  refine ⟨by decide, by decide, by decide⟩

/-- C7 amended: on a response object whose `result` contains the four gas
fields, `format_gas_prices` renders the joined lines; the value of each present field
appears verbatim in its line and in the output; each missing field
renders as "N/A"; and the suggested-base-fee line is appended if and only if
the result maps `suggestBaseFee` to a non-null value (a JSON `null` behaves
like a missing key). -/
theorem c7_gas_formatting (dd : List (String × PyField))
    (r : List (String × PyScalar)) (hne : dd.isEmpty = false)
    (hres : lookupKey dd "result" = some (.obj r)) :
    format_gas_prices (some (.dict dd)) = .ok (joinNL (gasLines r)) ∧
    (∀ s, lookupKey r "SafeGasPrice" = some (.str s) →
      ("Safe Gas Price:    " ++ s ++ " Gwei") ∈ gasLines r ∧
      Substr s (joinNL (gasLines r))) ∧
    (∀ s, lookupKey r "ProposeGasPrice" = some (.str s) →
      ("Propose Gas Price: " ++ s ++ " Gwei") ∈ gasLines r ∧
      Substr s (joinNL (gasLines r))) ∧
    (∀ s, lookupKey r "FastGasPrice" = some (.str s) →
      ("Fast Gas Price:    " ++ s ++ " Gwei") ∈ gasLines r ∧
      Substr s (joinNL (gasLines r))) ∧
    (∀ s, lookupKey r "LastBlock" = some (.str s) →
      ("Last Block:        " ++ s) ∈ gasLines r ∧
      Substr s (joinNL (gasLines r))) ∧
    (lookupKey r "SafeGasPrice" = none →
      "Safe Gas Price:    N/A Gwei" ∈ gasLines r) ∧
    (lookupKey r "ProposeGasPrice" = none →
      "Propose Gas Price: N/A Gwei" ∈ gasLines r) ∧
    (lookupKey r "FastGasPrice" = none →
      "Fast Gas Price:    N/A Gwei" ∈ gasLines r) ∧
    (lookupKey r "LastBlock" = none →
      "Last Block:        N/A" ∈ gasLines r) ∧
    ((∃ v, lookupKey r "suggestBaseFee" = some v ∧ v ≠ PyScalar.null) ↔
      (∃ b, gasLines r = gasBase r ++ ["Suggested Base Fee: " ++ b ++ " Gwei"])) := by
  refine ⟨?_, ?_, ?_, ?_, ?_, ?_, ?_, ?_, ?_, ?_⟩
  · simp [format_gas_prices, hne, hres]
  · intro s hs
    have hb : ("Safe Gas Price:    " ++ s ++ " Gwei") ∈ gasBase r := by
      simp [gasBase, hs, pyScalarStr]
    exact ⟨gasBase_subset r _ hb,
      substr_mem_joinNL s (gasLines r) _ (gasBase_subset r _ hb)
        (substr_intro "Safe Gas Price:    " s " Gwei")⟩
  · intro s hs
    have hb : ("Propose Gas Price: " ++ s ++ " Gwei") ∈ gasBase r := by
      simp [gasBase, hs, pyScalarStr]
    exact ⟨gasBase_subset r _ hb,
      substr_mem_joinNL s (gasLines r) _ (gasBase_subset r _ hb)
        (substr_intro "Propose Gas Price: " s " Gwei")⟩
  · intro s hs
    have hb : ("Fast Gas Price:    " ++ s ++ " Gwei") ∈ gasBase r := by
      simp [gasBase, hs, pyScalarStr]
    exact ⟨gasBase_subset r _ hb,
      substr_mem_joinNL s (gasLines r) _ (gasBase_subset r _ hb)
        (substr_intro "Fast Gas Price:    " s " Gwei")⟩
  · intro s hs
    have hb : ("Last Block:        " ++ s) ∈ gasBase r := by
      simp [gasBase, hs, pyScalarStr]
    have hb' : ("Last Block:        " ++ s ++ "") ∈ gasBase r := by
      simpa using hb
    exact ⟨gasBase_subset r _ hb,
      substr_mem_joinNL s (gasLines r) _ (gasBase_subset r _ hb')
        (substr_intro "Last Block:        " s "")⟩
  · intro hnone
    have hb : ("Safe Gas Price:    " ++ "N/A" ++ " Gwei" : String) ∈ gasBase r := by
      simp [gasBase, hnone]
      exact Or.inl rfl
    have he : ("Safe Gas Price:    " ++ "N/A" ++ " Gwei" : String) =
        "Safe Gas Price:    N/A Gwei" := rfl
    exact gasBase_subset r _ (he ▸ hb)
  · intro hnone
    have hb : ("Propose Gas Price: " ++ "N/A" ++ " Gwei" : String) ∈ gasBase r := by
      simp [gasBase, hnone]
      exact Or.inr (Or.inl rfl)
    have he : ("Propose Gas Price: " ++ "N/A" ++ " Gwei" : String) =
        "Propose Gas Price: N/A Gwei" := rfl
    exact gasBase_subset r _ (he ▸ hb)
  · intro hnone
    have hb : ("Fast Gas Price:    " ++ "N/A" ++ " Gwei" : String) ∈ gasBase r := by
      simp [gasBase, hnone]
      exact Or.inr (Or.inr (Or.inl rfl))
    have he : ("Fast Gas Price:    " ++ "N/A" ++ " Gwei" : String) =
        "Fast Gas Price:    N/A Gwei" := rfl
    exact gasBase_subset r _ (he ▸ hb)
  · intro hnone
    have hb : ("Last Block:        " ++ "N/A" : String) ∈ gasBase r := by
      simp [gasBase, hnone]
      exact Or.inr (Or.inr (Or.inr rfl))
    have he : ("Last Block:        " ++ "N/A" : String) =
        "Last Block:        N/A" := rfl
    exact gasBase_subset r _ (he ▸ hb)
  · constructor
    · rintro ⟨v, hv, hvne⟩
      cases v with
      | null => exact absurd rfl hvne
      | str s => exact ⟨pyScalarStr (.str s), by simp [gasLines, hv]⟩
      | num m => exact ⟨pyScalarStr (.num m), by simp [gasLines, hv]⟩
      | bool b => exact ⟨pyScalarStr (.bool b), by simp [gasLines, hv]⟩
    · rintro ⟨b, hb⟩
      rcases hsb : lookupKey r "suggestBaseFee" with _ | v
      · have hgl : gasLines r = gasBase r := by simp [gasLines, hsb]
        rw [hgl] at hb
        have := congrArg List.length hb
        simp at this
      · cases v with
        | null =>
          have hgl : gasLines r = gasBase r := by simp [gasLines, hsb]
          rw [hgl] at hb
          have := congrArg List.length hb
          simp at this
        | str s => exact ⟨.str s, rfl, fun h => PyScalar.noConfusion h⟩
        | num m => exact ⟨.num m, rfl, fun h => PyScalar.noConfusion h⟩
        | bool bb => exact ⟨.bool bb, rfl, fun h => PyScalar.noConfusion h⟩

/-- Witness for the amended C7 at the simulated gas response of the spec: the
formatter output and the verbatim SafeGasPrice value. -/
theorem c7_gas_formatting_witness :
    format_gas_prices (some (.dict [("result", .obj specGasResult)])) =
      .ok (joinNL (gasLines specGasResult)) ∧
    Substr "20" (joinNL (gasLines specGasResult)) :=
  ⟨(c7_gas_formatting [("result", .obj specGasResult)] specGasResult
      (by decide) (by decide)).1,
   ((c7_gas_formatting [("result", .obj specGasResult)] specGasResult
      (by decide) (by decide)).2.1 "20" (by decide)).2⟩

theorem mainGasExample_events (r : Except String (Option PyVal)) :
    (mainGasExample r).1 = [.fetchGas] ∨
    (mainGasExample r).1 = [.fetchGas, .formatGas] := by
  rcases r with e | gd
  · exact Or.inl rfl
  · by_cases h : pyTruthy gd
    · rcases hf : format_gas_prices gd with s | s <;>
        simp [mainGasExample, h, hf]
    · simp [mainGasExample, h]

theorem mainTokenExample_events (r : Except String (Option PyVal)) :
    (mainTokenExample r).1 = [.fetchToken] ∨
    (mainTokenExample r).1 = [.fetchToken, .formatToken] := by
  rcases r with e | td
  · exact Or.inl rfl
  · by_cases h : pyTruthy td
    · rcases hf : format_balance (resultField td) 6 with s | s <;>
        simp [mainTokenExample, h, hf]
    · simp [mainTokenExample, h]

theorem mainEthExample_events (r : Except String (Option PyVal)) :
    (mainEthExample r).1 = [.fetchEth] ∨
    (mainEthExample r).1 = [.fetchEth, .formatEth] := by
  rcases r with e | ed
  · exact Or.inl rfl
  · by_cases h : pyTruthy ed
    · rcases hf : format_balance (resultField ed) 18 with s | s <;>
        simp [mainEthExample, h, hf]
    · simp [mainEthExample, h]

/-- C9: in the driver, a fetch that comes back absent is never followed by an
invocation of the corresponding formatter, and the run proceeds to the next
fetch of the next example. -/
theorem c9_driver_skips_absent (t1 t2 t3 : TransportOutcome) :
    ((mainApi.get_gas_prices t1).2.result = .ok none →
      DriverEvent.formatGas ∉ (mainDriver t1 t2 t3).1 ∧
      DriverEvent.fetchToken ∈ (mainDriver t1 t2 t3).1) ∧
    ((mainApi.get_token_balance "0xdac17f958d2ee523a2206206994597c13d831ec7"
        "0xd8dA6BF26964aF9D7eEd9e03E53415D37aA96045" t2).2.result = .ok none →
      DriverEvent.fetchToken ∈ (mainDriver t1 t2 t3).1 →
      DriverEvent.formatToken ∉ (mainDriver t1 t2 t3).1 ∧
      DriverEvent.fetchEth ∈ (mainDriver t1 t2 t3).1) ∧
    ((mainApi.get_eth_balance "0xd8dA6BF26964aF9D7eEd9e03E53415D37aA96045"
        t3).2.result = .ok none →
      DriverEvent.fetchEth ∈ (mainDriver t1 t2 t3).1 →
      DriverEvent.formatEth ∉ (mainDriver t1 t2 t3).1) := by
  refine ⟨?_, ?_, ?_⟩
  · intro h1
    have hmain : mainDriver t1 t2 t3 =
        andThen ([DriverEvent.fetchGas], none) (fun _ =>
          andThen (mainTokenExample (mainApi.get_token_balance
              "0xdac17f958d2ee523a2206206994597c13d831ec7"
              "0xd8dA6BF26964aF9D7eEd9e03E53415D37aA96045" t2).2.result) (fun _ =>
            mainEthExample (mainApi.get_eth_balance
              "0xd8dA6BF26964aF9D7eEd9e03E53415D37aA96045" t3).2.result)) := by
      unfold mainDriver
      rw [h1]
      rfl
    rw [hmain]
    simp only [andThen]
    rcases mainTokenExample_events (mainApi.get_token_balance
        "0xdac17f958d2ee523a2206206994597c13d831ec7"
        "0xd8dA6BF26964aF9D7eEd9e03E53415D37aA96045" t2).2.result with ht | ht <;>
      rcases hx : mainTokenExample (mainApi.get_token_balance
        "0xdac17f958d2ee523a2206206994597c13d831ec7"
        "0xd8dA6BF26964aF9D7eEd9e03E53415D37aA96045" t2).2.result with ⟨tevs, texc⟩ <;>
      rw [hx] at ht <;> simp only at ht <;> subst ht <;>
      rcases texc with _ | e <;>
      rcases mainEthExample_events (mainApi.get_eth_balance
        "0xd8dA6BF26964aF9D7eEd9e03E53415D37aA96045" t3).2.result with he | he <;>
      rcases hy : mainEthExample (mainApi.get_eth_balance
        "0xd8dA6BF26964aF9D7eEd9e03E53415D37aA96045" t3).2.result with ⟨eevs, eexc⟩ <;>
      rw [hy] at he <;> simp only at he <;> subst he <;>
      simp
  · intro h2 hmem
    rcases hg : mainGasExample (mainApi.get_gas_prices t1).2.result with ⟨gevs, gexc⟩
    have hgshape := mainGasExample_events (mainApi.get_gas_prices t1).2.result
    rw [hg] at hgshape
    simp only at hgshape
    have htok : mainTokenExample (mainApi.get_token_balance
        "0xdac17f958d2ee523a2206206994597c13d831ec7"
        "0xd8dA6BF26964aF9D7eEd9e03E53415D37aA96045" t2).2.result =
        ([DriverEvent.fetchToken], none) := by
      rw [h2]
      rfl
    have hmain : mainDriver t1 t2 t3 =
        andThen (gevs, gexc) (fun _ =>
          andThen ([DriverEvent.fetchToken], none) (fun _ =>
            mainEthExample (mainApi.get_eth_balance
              "0xd8dA6BF26964aF9D7eEd9e03E53415D37aA96045" t3).2.result)) := by
      unfold mainDriver
      rw [htok, hg]
    rw [hmain] at hmem ⊢
    rcases gexc with _ | e
    · simp only [andThen]
      rcases mainEthExample_events (mainApi.get_eth_balance
          "0xd8dA6BF26964aF9D7eEd9e03E53415D37aA96045" t3).2.result with he | he <;>
        rcases hy : mainEthExample (mainApi.get_eth_balance
          "0xd8dA6BF26964aF9D7eEd9e03E53415D37aA96045" t3).2.result with ⟨eevs, eexc⟩ <;>
        rw [hy] at he <;> simp only at he <;> subst he <;>
        rcases hgshape with hgs | hgs <;> subst hgs <;>
        rcases eexc with _ | e2 <;>
        simp
    · rcases hgshape with hgs | hgs <;> subst hgs <;> simp [andThen] at hmem
  · intro h3 hmem
    rcases hg : mainGasExample (mainApi.get_gas_prices t1).2.result with ⟨gevs, gexc⟩
    have hgshape := mainGasExample_events (mainApi.get_gas_prices t1).2.result
    rw [hg] at hgshape
    simp only at hgshape
    rcases ht : mainTokenExample (mainApi.get_token_balance
        "0xdac17f958d2ee523a2206206994597c13d831ec7"
        "0xd8dA6BF26964aF9D7eEd9e03E53415D37aA96045" t2).2.result with ⟨tevs, texc⟩
    have htshape := mainTokenExample_events (mainApi.get_token_balance
        "0xdac17f958d2ee523a2206206994597c13d831ec7"
        "0xd8dA6BF26964aF9D7eEd9e03E53415D37aA96045" t2).2.result
    rw [ht] at htshape
    simp only at htshape
    have heth : mainEthExample (mainApi.get_eth_balance
        "0xd8dA6BF26964aF9D7eEd9e03E53415D37aA96045" t3).2.result =
        ([DriverEvent.fetchEth], none) := by
      rw [h3]
      rfl
    have hmain : mainDriver t1 t2 t3 =
        andThen (gevs, gexc) (fun _ =>
          andThen (tevs, texc) (fun _ => ([DriverEvent.fetchEth], none))) := by
      unfold mainDriver
      rw [heth, hg, ht]
    rw [hmain] at hmem ⊢
    rcases gexc with _ | e <;> rcases texc with _ | e2 <;>
      rcases hgshape with hgs | hgs <;> subst hgs <;>
      rcases htshape with hts | hts <;> subst hts <;>
      simp [andThen] at hmem ⊢

/-- Witness for C9: with every fetch answered by the simulated
status-"0"/NOTOK response, the gas formatter is never invoked and the driver
still reaches the token fetch. -/
theorem c9_driver_skips_absent_witness :
    DriverEvent.formatGas ∉
      (mainDriver statusZeroResponse statusZeroResponse statusZeroResponse).1 ∧
    DriverEvent.fetchToken ∈
      (mainDriver statusZeroResponse statusZeroResponse statusZeroResponse).1 :=
  (c9_driver_skips_absent statusZeroResponse statusZeroResponse
    statusZeroResponse).1 (by decide)
